import Mathlib

/-!
Verification of the file-header codec of `measureme`
(`src/measureme/src/file_header.rs`).

Every binary file produced by the library starts with an 8-byte header:
a 4-byte magic tag identifying the file kind followed by the on-disk
format version, stored as a little-endian unsigned 32-bit integer.

Bytes are modelled as natural numbers (`u8` values are `< 256`); byte
buffers are `List Nat`.  Slice indexing that can panic in Rust is
modelled with `Option`: a `none` result corresponds to a panic
(out-of-bounds slice access).
-/

namespace FileHeader

/-- Rust constant `pub const CURRENT_FILE_FORMAT_VERSION: u32 = 0;`. -/
def CURRENT_FILE_FORMAT_VERSION : Nat := 0

/-- Rust constant `pub const FILE_MAGIC_EVENT_STREAM: &[u8; 4] = b"MMES";`. -/
def FILE_MAGIC_EVENT_STREAM : List Nat := [0x4D, 0x4D, 0x45, 0x53]

/-- Rust constant `pub const FILE_MAGIC_STRINGTABLE_DATA: &[u8; 4] = b"MMSD";`. -/
def FILE_MAGIC_STRINGTABLE_DATA : List Nat := [0x4D, 0x4D, 0x53, 0x44]

/-- Rust constant `pub const FILE_MAGIC_STRINGTABLE_INDEX: &[u8; 4] = b"MMSI";`. -/
def FILE_MAGIC_STRINGTABLE_INDEX : List Nat := [0x4D, 0x4D, 0x53, 0x49]

/-- Rust constant `pub const FILE_HEADER_SIZE: usize = 8;`. -/
def FILE_HEADER_SIZE : Nat := 8

/-- Model of `LittleEndian::write_u32`: the four bytes of `v` (a `u32`), least
significant first. -/
def write_u32_LE (v : Nat) : List Nat :=
  [v % 256, v / 256 % 256, v / 256 ^ 2 % 256, v / 256 ^ 3 % 256]

/-- Model of `LittleEndian::read_u32` applied to a 4-byte slice: decodes the
little-endian unsigned 32-bit integer. -/
def read_u32_LE (b : List Nat) : Nat :=
  b.getD 0 0 + b.getD 1 0 * 256 + b.getD 2 0 * 256 ^ 2 + b.getD 3 0 * 256 ^ 3

/-- Rust slice indexing `&b[lo..hi]`: `some` of the sub-list when the
range is in bounds, `none` (panic) otherwise. -/
def slice (b : List Nat) (lo hi : Nat) : Option (List Nat) :=
  if lo ≤ hi ∧ hi ≤ b.length then some ((b.drop lo).take (hi - lo)) else none

/-- One call to `SerializationSink::write_atomic`: the requested size and
the bytes the fill closure stored into the buffer. -/
structure AtomicWrite where
  size : Nat
  bytes : List Nat
deriving Repr, DecidableEq

/-- The function `write_file_header`: asserts `FILE_HEADER_SIZE == 8`, then requests an
atomic write of `FILE_HEADER_SIZE` bytes whose fill closure copies
`file_magic` into bytes 0..4 and the little-endian encoding of
`CURRENT_FILE_FORMAT_VERSION` into bytes 4..8.  The `file_magic`
argument has Rust type `&[u8; 4]`, i.e. length exactly 4. -/
def write_file_header (file_magic : List Nat) : AtomicWrite :=
  { size := FILE_HEADER_SIZE
    bytes := file_magic ++ write_u32_LE CURRENT_FILE_FORMAT_VERSION }

/-- The single error kind of the module: the first four bytes of the
buffer did not equal the expected magic.  The Rust code renders both
values into the error message, `Unexpected file magic ... Expected ...`;
the structured form carries the same data. -/
inductive HeaderError where
  | magicMismatch (actual expected : List Nat) : HeaderError
deriving Repr, DecidableEq

/-- The function `read_file_header(bytes, expected_magic)`: asserts
`FILE_HEADER_SIZE == 8`, takes `actual_magic = &bytes[0..4]`, returns a
`MagicMismatch` error when it differs from `expected_magic`, otherwise
decodes `&bytes[4..8]` as a little-endian `u32`.  `none` models a panic
from an out-of-bounds slice. -/
def read_file_header (bytes expected_magic : List Nat) :
    Option (Except HeaderError Nat) :=
  if FILE_HEADER_SIZE = 8 then
    match slice bytes 0 4 with
    | none => none
    | some actual_magic =>
      if actual_magic ≠ expected_magic then
        some (.error (.magicMismatch actual_magic expected_magic))
      else
        match slice bytes 4 8 with
        | none => none
        | some version_bytes => some (.ok (read_u32_LE version_bytes))
  else none

/-- The function `strip_file_header(data) = &data[FILE_HEADER_SIZE..]`; `none` models
the panic when `data` is shorter than the header. -/
def strip_file_header (data : List Nat) : Option (List Nat) :=
  if FILE_HEADER_SIZE ≤ data.length then some (data.drop FILE_HEADER_SIZE)
  else none

/-! ### Helper lemmas -/

/-- On a buffer of length at least `hi`, `slice` succeeds and returns
`take`-of-`drop`. -/
theorem slice_eq_of_le {b : List Nat} {lo hi : Nat} (h1 : lo ≤ hi)
    (h2 : hi ≤ b.length) : slice b lo hi = some ((b.drop lo).take (hi - lo)) := by
  simp [slice, h1, h2]

/-- Unfolding of `read_file_header` on a buffer of length at least 8. -/
theorem read_file_header_eq {bytes : List Nat} (expected_magic : List Nat)
    (h : 8 ≤ bytes.length) :
    read_file_header bytes expected_magic =
      if bytes.take 4 ≠ expected_magic then
        some (.error (.magicMismatch (bytes.take 4) expected_magic))
      else
        some (.ok (read_u32_LE ((bytes.drop 4).take 4))) := by
  have h4 : 4 ≤ bytes.length := le_trans (by norm_num) h
  rw [read_file_header]
  rw [slice_eq_of_le (by norm_num) h4, slice_eq_of_le (by norm_num) h]
  simp [FILE_HEADER_SIZE]

/-- Length of the buffer produced by `write_file_header`. -/
theorem write_file_header_length {m : List Nat} (h : m.length = 4) :
    (write_file_header m).bytes.length = 8 := by
  simp [write_file_header, write_u32_LE, h]

/-- First four bytes of the produced buffer are the magic. -/
theorem write_file_header_take {m : List Nat} (h : m.length = 4) :
    (write_file_header m).bytes.take 4 = m := by
  simp [write_file_header]
  rw [← h, List.take_left]

/-- Bytes 4..8 of the produced buffer are the little-endian version. -/
theorem write_file_header_drop {m : List Nat} (h : m.length = 4) :
    (write_file_header m).bytes.drop 4 =
      write_u32_LE CURRENT_FILE_FORMAT_VERSION := by
  simp [write_file_header]
  rw [← h, List.drop_left]

/-! ### Claim theorems -/

/-- C1.  Round-trip: for every 4-byte magic `m`, reading the 8 bytes
produced by `write_file_header m` with expected magic `m` succeeds (no
panic, no error) and returns `CURRENT_FILE_FORMAT_VERSION`. -/
theorem write_read_roundtrip (m : List Nat) (h : m.length = 4) :
    read_file_header (write_file_header m).bytes m =
      some (.ok CURRENT_FILE_FORMAT_VERSION) := by
  rw [read_file_header_eq m (by rw [write_file_header_length h])]
  rw [write_file_header_take h, write_file_header_drop h]
  simp [write_u32_LE, read_u32_LE, CURRENT_FILE_FORMAT_VERSION]

/-- Witness for C1 at the concrete magic `"MMES"`. -/
theorem write_read_roundtrip_witness :
    read_file_header (write_file_header FILE_MAGIC_EVENT_STREAM).bytes
        FILE_MAGIC_EVENT_STREAM = some (.ok CURRENT_FILE_FORMAT_VERSION) :=
  write_read_roundtrip FILE_MAGIC_EVENT_STREAM (by decide)

/-- C2.  Magic rejection: reading a buffer written with magic `m1` using
a different expected magic `m2` returns a `magicMismatch` error carrying
the actual magic `m1` and the expected magic `m2`. -/
theorem magic_rejection (m1 m2 : List Nat) (h1 : m1.length = 4)
    (h2 : m2.length = 4) (hne : m2 ≠ m1) :
    read_file_header (write_file_header m1).bytes m2 =
      some (.error (.magicMismatch m1 m2)) := by
  rw [read_file_header_eq m2 (by rw [write_file_header_length h1])]
  rw [write_file_header_take h1]
  simp [Ne.symm hne]

/-- Witness for C2 at the concrete magics `"MMES"` and `"MMSD"`. -/
theorem magic_rejection_witness :
    read_file_header (write_file_header FILE_MAGIC_EVENT_STREAM).bytes
        FILE_MAGIC_STRINGTABLE_DATA =
      some (.error (.magicMismatch FILE_MAGIC_EVENT_STREAM
        FILE_MAGIC_STRINGTABLE_DATA)) :=
  magic_rejection FILE_MAGIC_EVENT_STREAM FILE_MAGIC_STRINGTABLE_DATA
    (by decide) (by decide) (by decide)

/-- C3.  Byte layout: `write_file_header` requests an atomic write of
exactly 8 bytes; the buffer holds the caller's magic verbatim at bytes
0..4 and the little-endian `CURRENT_FILE_FORMAT_VERSION` at bytes 4..8;
in particular the magic `"MMES"` produces exactly
`[0x4D, 0x4D, 0x45, 0x53, 0x00, 0x00, 0x00, 0x00]`. -/
theorem write_byte_layout (m : List Nat) (h : m.length = 4) :
    (write_file_header m).size = 8 ∧
    (write_file_header m).bytes.length = 8 ∧
    (write_file_header m).bytes.take 4 = m ∧
    (write_file_header m).bytes.drop 4 =
      write_u32_LE CURRENT_FILE_FORMAT_VERSION ∧
    (write_file_header FILE_MAGIC_EVENT_STREAM).bytes =
      [0x4D, 0x4D, 0x45, 0x53, 0x00, 0x00, 0x00, 0x00] :=
  ⟨rfl, write_file_header_length h, write_file_header_take h,
    write_file_header_drop h, by decide⟩

/-- Witness for C3 at the concrete magic `"MMSI"`. -/
theorem write_byte_layout_witness :
    (write_file_header FILE_MAGIC_STRINGTABLE_INDEX).size = 8 ∧
    (write_file_header FILE_MAGIC_STRINGTABLE_INDEX).bytes.length = 8 ∧
    (write_file_header FILE_MAGIC_STRINGTABLE_INDEX).bytes.take 4 =
      FILE_MAGIC_STRINGTABLE_INDEX ∧
    (write_file_header FILE_MAGIC_STRINGTABLE_INDEX).bytes.drop 4 =
      write_u32_LE CURRENT_FILE_FORMAT_VERSION ∧
    (write_file_header FILE_MAGIC_EVENT_STREAM).bytes =
      [0x4D, 0x4D, 0x45, 0x53, 0x00, 0x00, 0x00, 0x00] :=
  write_byte_layout FILE_MAGIC_STRINGTABLE_INDEX (by decide)

/-- C4.  Version pass-through without validation: on any buffer of at
least 8 bytes whose first 4 bytes equal the expected magic,
`read_file_header` succeeds and returns exactly the little-endian `u32`
decoded from bytes 4..8 with no range check; in particular version bytes
`0xFF 0xFF 0xFF 0xFF` yield `0xFFFFFFFF`. -/
theorem version_passthrough (bytes m : List Nat) (h : 8 ≤ bytes.length)
    (hm : bytes.take 4 = m) :
    read_file_header bytes m =
      some (.ok (read_u32_LE ((bytes.drop 4).take 4))) ∧
    ((bytes.drop 4).take 4 = [0xFF, 0xFF, 0xFF, 0xFF] →
      read_file_header bytes m = some (.ok 0xFFFFFFFF)) := by
  rw [read_file_header_eq m h]
  refine ⟨by simp [hm], fun hv => ?_⟩
  rw [hv]
  simp [hm, read_u32_LE]

/-- Witness for C4 on the header `"MMSI"` followed by an all-ones
version field. -/
theorem version_passthrough_witness :
    read_file_header
        (FILE_MAGIC_STRINGTABLE_INDEX ++ [0xFF, 0xFF, 0xFF, 0xFF])
        FILE_MAGIC_STRINGTABLE_INDEX =
      some (.ok (read_u32_LE
        (((FILE_MAGIC_STRINGTABLE_INDEX ++
            [0xFF, 0xFF, 0xFF, 0xFF]).drop 4).take 4))) ∧
    (((FILE_MAGIC_STRINGTABLE_INDEX ++
        [0xFF, 0xFF, 0xFF, 0xFF]).drop 4).take 4 =
        [0xFF, 0xFF, 0xFF, 0xFF] →
      read_file_header
          (FILE_MAGIC_STRINGTABLE_INDEX ++ [0xFF, 0xFF, 0xFF, 0xFF])
          FILE_MAGIC_STRINGTABLE_INDEX =
        some (.ok 0xFFFFFFFF)) :=
  version_passthrough
    (FILE_MAGIC_STRINGTABLE_INDEX ++ [0xFF, 0xFF, 0xFF, 0xFF])
    FILE_MAGIC_STRINGTABLE_INDEX (by decide) (by decide)

/-- C5.  Raises-iff with no partial success: on any buffer of at least 8
bytes, `read_file_header` errs exactly when bytes 0..4 differ from the
expected magic, succeeds with a version value exactly when they agree,
and the only error ever produced is the `magicMismatch` carrying the
actual and expected magics. -/
theorem error_iff_magic_mismatch (bytes m : List Nat)
    (h : 8 ≤ bytes.length) :
    ((∃ e, read_file_header bytes m = some (Except.error e)) ↔
      bytes.take 4 ≠ m) ∧
    ((∃ v, read_file_header bytes m = some (Except.ok v)) ↔
      bytes.take 4 = m) ∧
    (∀ e, read_file_header bytes m = some (Except.error e) →
      e = HeaderError.magicMismatch (bytes.take 4) m) := by
  rw [read_file_header_eq m h]
  by_cases hc : bytes.take 4 = m <;> simp [hc]

/-- Witness for C5 on an 8-byte buffer whose magic does not match. -/
theorem error_iff_magic_mismatch_witness :
    ((∃ e, read_file_header [0, 0, 0, 0, 1, 2, 3, 4]
        FILE_MAGIC_EVENT_STREAM = some (Except.error e)) ↔
      [0, 0, 0, 0, 1, 2, 3, 4].take 4 ≠ FILE_MAGIC_EVENT_STREAM) ∧
    ((∃ v, read_file_header [0, 0, 0, 0, 1, 2, 3, 4]
        FILE_MAGIC_EVENT_STREAM = some (Except.ok v)) ↔
      [0, 0, 0, 0, 1, 2, 3, 4].take 4 = FILE_MAGIC_EVENT_STREAM) ∧
    (∀ e, read_file_header [0, 0, 0, 0, 1, 2, 3, 4]
        FILE_MAGIC_EVENT_STREAM = some (Except.error e) →
      e = HeaderError.magicMismatch ([0, 0, 0, 0, 1, 2, 3, 4].take 4)
        FILE_MAGIC_EVENT_STREAM) :=
  error_iff_magic_mismatch [0, 0, 0, 0, 1, 2, 3, 4]
    FILE_MAGIC_EVENT_STREAM (by decide)

/-- C6.  Safety under the length precondition: on any buffer of at least
8 bytes, `read_file_header` never hits an out-of-bounds slice (it never
returns the `none` that models a panic), and the runtime assertion that
`FILE_HEADER_SIZE` equals 8 always holds. -/
theorem read_no_panic (bytes m : List Nat) (h : 8 ≤ bytes.length) :
    (read_file_header bytes m).isSome ∧ FILE_HEADER_SIZE = 8 := by
  rw [read_file_header_eq m h]
  refine ⟨?_, rfl⟩
  by_cases hc : bytes.take 4 = m <;> simp [hc]

/-- Witness for C6 on a concrete 9-byte buffer. -/
theorem read_no_panic_witness :
    (read_file_header [9, 9, 9, 9, 9, 9, 9, 9, 9]
        FILE_MAGIC_STRINGTABLE_DATA).isSome ∧
    FILE_HEADER_SIZE = 8 :=
  read_no_panic [9, 9, 9, 9, 9, 9, 9, 9, 9] FILE_MAGIC_STRINGTABLE_DATA
    (by decide)

/-- C7.  The function `strip_file_header` on any buffer of at least 8
bytes succeeds and returns the sub-list starting 8 elements in: its
length is the input length minus 8 and its element at index `i` is the
input's element at index `8 + i`, with no validation of the contents. -/
theorem strip_file_header_spec (data : List Nat) (h : 8 ≤ data.length) :
    strip_file_header data = some (data.drop 8) ∧
    (data.drop 8).length = data.length - 8 ∧
    ∀ i, (data.drop 8)[i]? = data[8 + i]? := by
  refine ⟨by simp [strip_file_header, FILE_HEADER_SIZE, h], by simp, fun i => ?_⟩
  simp [List.getElem?_drop]

/-- Witness for C7 on a concrete 10-byte buffer. -/
theorem strip_file_header_spec_witness :
    strip_file_header [0, 1, 2, 3, 4, 5, 6, 7, 8, 9] =
      some ([0, 1, 2, 3, 4, 5, 6, 7, 8, 9].drop 8) ∧
    ([0, 1, 2, 3, 4, 5, 6, 7, 8, 9].drop 8).length =
      [0, 1, 2, 3, 4, 5, 6, 7, 8, 9].length - 8 ∧
    ∀ i, ([0, 1, 2, 3, 4, 5, 6, 7, 8, 9].drop 8)[i]? =
      [0, 1, 2, 3, 4, 5, 6, 7, 8, 9][8 + i]? :=
  strip_file_header_spec [0, 1, 2, 3, 4, 5, 6, 7, 8, 9] (by decide)

/-- C8.  Determinism of `read_file_header`: the embedding is a pure
function of the buffer contents and the expected magic, so two calls on
identical buffer contents with identical expected magic return identical
results (same success/failure outcome, same version or error content). -/
theorem read_deterministic (b1 b2 m1 m2 : List Nat) (hb : b1 = b2)
    (hm : m1 = m2) :
    read_file_header b1 m1 = read_file_header b2 m2 := by
  rw [hb, hm]

/-- Witness for C8 on two identical concrete calls. -/
theorem read_deterministic_witness :
    read_file_header [0x4D, 0x4D, 0x45, 0x53, 7, 0, 0, 0]
        FILE_MAGIC_EVENT_STREAM =
      read_file_header [0x4D, 0x4D, 0x45, 0x53, 7, 0, 0, 0]
        FILE_MAGIC_EVENT_STREAM :=
  read_deterministic [0x4D, 0x4D, 0x45, 0x53, 7, 0, 0, 0]
    [0x4D, 0x4D, 0x45, 0x53, 7, 0, 0, 0] FILE_MAGIC_EVENT_STREAM
    FILE_MAGIC_EVENT_STREAM (by decide) (by decide)

/-- C9.  Module constants: the three recognized magic values are the
4-byte ASCII tags `"MMES"`, `"MMSD"` and `"MMSI"`, pairwise distinct,
each of length 4 with every byte in the ASCII range, and
`CURRENT_FILE_FORMAT_VERSION` equals 0. -/
theorem module_constants :
    FILE_MAGIC_EVENT_STREAM = "MMES".data.map Char.toNat ∧
    FILE_MAGIC_STRINGTABLE_DATA = "MMSD".data.map Char.toNat ∧
    FILE_MAGIC_STRINGTABLE_INDEX = "MMSI".data.map Char.toNat ∧
    FILE_MAGIC_EVENT_STREAM.length = 4 ∧
    FILE_MAGIC_STRINGTABLE_DATA.length = 4 ∧
    FILE_MAGIC_STRINGTABLE_INDEX.length = 4 ∧
    FILE_MAGIC_EVENT_STREAM ≠ FILE_MAGIC_STRINGTABLE_DATA ∧
    FILE_MAGIC_EVENT_STREAM ≠ FILE_MAGIC_STRINGTABLE_INDEX ∧
    FILE_MAGIC_STRINGTABLE_DATA ≠ FILE_MAGIC_STRINGTABLE_INDEX ∧
    (∀ b ∈ FILE_MAGIC_EVENT_STREAM, b < 128) ∧
    (∀ b ∈ FILE_MAGIC_STRINGTABLE_DATA, b < 128) ∧
    (∀ b ∈ FILE_MAGIC_STRINGTABLE_INDEX, b < 128) ∧
    CURRENT_FILE_FORMAT_VERSION = 0 := by
  refine ⟨rfl, rfl, rfl, ?_⟩
  decide

/-- C10.  Trailing-byte noninterference: two buffers of at least 8 bytes
that agree on their first 8 bytes give the same `read_file_header`
result for the same expected magic — the outcome depends only on the
8-byte header prefix, never on payload bytes. -/
theorem trailing_noninterference (b1 b2 m : List Nat)
    (h1 : 8 ≤ b1.length) (h2 : 8 ≤ b2.length)
    (hpre : b1.take 8 = b2.take 8) :
    read_file_header b1 m = read_file_header b2 m := by
  have ht4 : b1.take 4 = b2.take 4 := by
    have h := congrArg (List.take 4) hpre
    simpa [List.take_take] using h
  have hd4 : (b1.drop 4).take 4 = (b2.drop 4).take 4 := by
    have h := congrArg (List.drop 4) hpre
    simpa [List.drop_take] using h
  rw [read_file_header_eq m h1, read_file_header_eq m h2, ht4, hd4]

/-- Witness for C10: two buffers sharing a header but with different
payloads read identically. -/
theorem trailing_noninterference_witness :
    read_file_header [0x4D, 0x4D, 0x53, 0x44, 1, 0, 0, 0, 42]
        FILE_MAGIC_STRINGTABLE_DATA =
      read_file_header [0x4D, 0x4D, 0x53, 0x44, 1, 0, 0, 0, 99, 100]
        FILE_MAGIC_STRINGTABLE_DATA :=
  trailing_noninterference [0x4D, 0x4D, 0x53, 0x44, 1, 0, 0, 0, 42]
    [0x4D, 0x4D, 0x53, 0x44, 1, 0, 0, 0, 99, 100]
    FILE_MAGIC_STRINGTABLE_DATA (by decide) (by decide) (by decide)

end FileHeader
